import Mathlib

/-!
Verification development for the cuBLAS level-1 backend adapter
(`src/blas/backends/cublas/cublas_level1.cpp` of the oneMKL interface layer).

The adapter lowers each oneMKL level-1 entry point into exactly one call of a
vendor (cuBLAS) routine.  We embed each routine template as a Lean function
that, given the native routine it is instantiated with, the caller arguments
and the current state of the cached cuBLAS handle, returns:
  * the list of device-side events the invocation enqueues (`submit`,
    pointer-mode switches, the one native call with the integer arguments
    actually passed, and host-side post-processing steps),
  * the state of the shared handle afterwards, and
  * either the value written to the caller's result storage or the fault
    raised.

Machine integers are modelled as `Int` with explicit 32-bit bounds where the
native (cuBLAS) integer width matters; element values are modelled as exact
rationals (the arithmetic itself is delegated to the vendor library, which the
source does not implement).
-/

namespace OneMKLCublas

/-- Model of a real floating-point scalar value.  The adapter never performs
arithmetic on element values other than the two documented emulation shims, so
values are carried exactly. -/
abbrev Val := ℚ

/-- Model of a complex scalar value (real and imaginary parts). -/
abbrev CplxVal := ℚ × ℚ

/-- The cuBLAS pointer mode of a handle: scalar arguments/results are read
through host addresses (`host`, the default) or device addresses (`device`). -/
inductive PointerMode where
  | host
  | device
deriving DecidableEq, Repr

/-- The fault taxonomy relevant to the level-1 adapter. -/
inductive Fault where
  | OverflowError
  | NativeCallFailure (routine : String) (code : Int)
deriving DecidableEq, Repr

/-- State of the cached cuBLAS handle shared by all routines on one context:
its current pointer mode, and the native status code each vendor routine
returns when invoked through this handle (0 = success). -/
structure CublasHandle where
  pointerMode : PointerMode
  env : String → Int

/-- One observable step of a routine invocation. -/
inductive Event where
  | submit
  | setPointerMode (m : PointerMode)
  | nativeCall (routine : String) (mode : PointerMode) (intArgs : List Int)
  | hostReadModifyWrite
  | hostWrite
deriving DecidableEq, Repr

/-- Outcome of one routine invocation: the enqueued events, the handle state
afterwards, and the written result or the fault raised. -/
structure Outcome (ρ : Type) where
  trace : List Event
  handle : CublasHandle
  res : Except Fault ρ

instance {ε α : Type} [DecidableEq ε] [DecidableEq α] : DecidableEq (Except ε α) := fun a b =>
  match a, b with
  | .ok x, .ok y => if h : x = y then .isTrue (by rw [h]) else .isFalse (by simp [h])
  | .error e, .error f => if h : e = f then .isTrue (by rw [h]) else .isFalse (by simp [h])
  | .ok _, .error _ => .isFalse (by simp)
  | .error _, .ok _ => .isFalse (by simp)

/-- Largest value of the native (cuBLAS) `int` argument width. -/
def INT32_MAX : Int := 2 ^ 31 - 1

/-- Smallest value of the native (cuBLAS) `int` argument width. -/
def INT32_MIN : Int := -(2 ^ 31)

/-- Predicate stating that `v` is representable in the native integer
width. -/
def fitsNativeInt (v : Int) : Prop := INT32_MIN ≤ v ∧ v ≤ INT32_MAX

instance : DecidablePred fitsNativeInt := fun v =>
  decidable_of_iff (INT32_MIN ≤ v ∧ v ≤ INT32_MAX) Iff.rfl

/-- Absolute value of a native integer (model of `std::abs` on the index
arguments), kept in a directly computable form. -/
def intAbs (v : Int) : Int := (v.natAbs : Int)

/-- Absolute value of a scalar value, kept in a directly computable form. -/
def qabs (v : Val) : Val := if v < 0 then -v else v

/-- Maximum of the absolute values of a list of strides. -/
def maxAbsStride (strides : List Int) : Int :=
  strides.foldr (fun s m => max (intAbs s) m) 0

/-- Modelled from the spec: `overflow_check` is declared in
`cublas_helper.hpp`, which is not among the provided sources; per the spec,
every routine taking a count `n` and one or more strides validates that
`n * max(|stride|)` does not overflow the native integer width, and a
violation faults with `OverflowError` before any device work is enqueued. -/
def overflow_check (n : Int) (strides : List Int) : Except Fault Unit :=
  if fitsNativeInt (n * maxAbsStride strides) then .ok () else .error .OverflowError

/-- A vendor routine of signature `σ`, together with its symbol name. -/
structure NativeFn (σ : Type) where
  name : String
  app : σ

/-- Modelled from the spec: the `CUBLAS_ERROR_FUNC` macro is declared in
`cublas_helper.hpp`, which is not among the provided sources; per the spec the
native status code is captured and, when nonzero, converted to a fault
carrying the routine name and the native code, with no retry. -/
def cublasCheck {ρ : Type} (h : CublasHandle) (name : String) (v : ρ) : Except Fault ρ :=
  if h.env name = 0 then .ok v else .error (.NativeCallFailure name (h.env name))

/-- Embedding of the `asum` template: validates overflow, submits one task
that switches the handle to device pointer mode (the result is written to a
device buffer) and issues the one native call, passing `std::abs(incx)`
because ASUM does not support a negative index. -/
def asumT {α β : Type} (fn : NativeFn (Int → List α → Int → β)) (n : Int) (x : List α)
    (incx : Int) (h : CublasHandle) : Outcome β :=
  match overflow_check n [incx] with
  | .error f => ⟨[], h, .error f⟩
  | .ok _ =>
    ⟨[.submit, .setPointerMode .device, .nativeCall fn.name .device [n, intAbs incx]],
      { h with pointerMode := .device },
      cublasCheck h fn.name (fn.app n x (intAbs incx))⟩

/-- Logical offset of the `i`-th element of a strided BLAS vector of length
`n` with increment `inc` (reference BLAS convention: negative increments
traverse backwards from the far end). -/
def blasOffset (n : Int) (inc : Int) (i : ℕ) : ℕ :=
  if 0 ≤ inc then i * inc.toNat else (n.toNat - 1 - i) * inc.natAbs

/-- The `i`-th logical element of a strided vector of rationals. -/
def lelt (x : List Val) (n : Int) (inc : Int) (i : ℕ) : Val :=
  x.getD (blasOffset n inc i) 0

/-- Mathematical strided dot product (model of the vendor `cublasSdot`). -/
def blasDot (n : Int) (x : List Val) (incx : Int) (y : List Val) (incy : Int) : Val :=
  if n ≤ 0 then 0
  else (List.range n.toNat).foldl (fun acc i => acc + lelt x n incx i * lelt y n incy i) 0

/-- Mathematical strided absolute sum (model of the vendor `cublasSasum`). -/
def blasAsum (n : Int) (x : List Val) (incx : Int) : Val :=
  if n ≤ 0 then 0
  else (List.range n.toNat).foldl (fun acc i => acc + qabs (lelt x n incx i)) 0

/-- Model of the vendor `cublasSasum` routine. -/
def cublasSasum : NativeFn (Int → List Val → Int → Val) :=
  ⟨"cublasSasum", blasAsum⟩

/-- Embedding of the `scal` template: no pointer-mode switch is performed (the
scalar `a` is passed by host address), and `std::abs(incx)` is passed because
SCAL does not support a negative `incx`. -/
def scalT {α β : Type} (fn : NativeFn (Int → α → List β → Int → List β)) (n : Int) (a : α)
    (x : List β) (incx : Int) (h : CublasHandle) : Outcome (List β) :=
  match overflow_check n [incx] with
  | .error f => ⟨[], h, .error f⟩
  | .ok _ =>
    ⟨[.submit, .nativeCall fn.name h.pointerMode [n, intAbs incx]], h,
      cublasCheck h fn.name (fn.app n a x (intAbs incx))⟩

/-- Embedding of the `axpy` template: no pointer-mode switch (the scalar
`alpha` is passed by host address); both strides are passed unmodified. -/
def axpyT {α : Type} (fn : NativeFn (Int → α → List α → Int → List α → Int → List α))
    (n : Int) (alpha : α) (x : List α) (incx : Int) (y : List α) (incy : Int)
    (h : CublasHandle) : Outcome (List α) :=
  match overflow_check n [incx, incy] with
  | .error f => ⟨[], h, .error f⟩
  | .ok _ =>
    ⟨[.submit, .nativeCall fn.name h.pointerMode [n, incx, incy]], h,
      cublasCheck h fn.name (fn.app n alpha x incx y incy)⟩

/-- Embedding of the `rotg` template: no count/stride arguments (hence no
overflow check); the handle is switched to device pointer mode because all
four scalars live in device buffers. -/
def rotgT {α β : Type} (fn : NativeFn (α → α → β → α → α × α × β × α)) (a b : α) (c : β)
    (s : α) (h : CublasHandle) : Outcome (α × α × β × α) :=
  ⟨[.submit, .setPointerMode .device, .nativeCall fn.name .device []],
    { h with pointerMode := .device },
    cublasCheck h fn.name (fn.app a b c s)⟩

/-- Embedding of the `rotm` template: device pointer mode is set (the `param`
array lives in a device buffer); both strides are passed unmodified. -/
def rotmT {α : Type}
    (fn : NativeFn (Int → List α → Int → List α → Int → List α → List α × List α))
    (n : Int) (x : List α) (incx : Int) (y : List α) (incy : Int) (param : List α)
    (h : CublasHandle) : Outcome (List α × List α) :=
  match overflow_check n [incx, incy] with
  | .error f => ⟨[], h, .error f⟩
  | .ok _ =>
    ⟨[.submit, .setPointerMode .device, .nativeCall fn.name .device [n, incx, incy]],
      { h with pointerMode := .device },
      cublasCheck h fn.name (fn.app n x incx y incy param)⟩

/-- Embedding of the `copy` template: no pointer-mode switch; both strides
are passed unmodified. -/
def copyT {α : Type} (fn : NativeFn (Int → List α → Int → List α → Int → List α))
    (n : Int) (x : List α) (incx : Int) (y : List α) (incy : Int) (h : CublasHandle) :
    Outcome (List α) :=
  match overflow_check n [incx, incy] with
  | .error f => ⟨[], h, .error f⟩
  | .ok _ =>
    ⟨[.submit, .nativeCall fn.name h.pointerMode [n, incx, incy]], h,
      cublasCheck h fn.name (fn.app n x incx y incy)⟩

/-- Embedding of the `dot` template (also instantiated as `dotc`/`dotu` for
the conjugated/unconjugated complex variants): device pointer mode is set
(the result is written to a device buffer); both strides are passed
unmodified. -/
def dotT {α : Type} (fn : NativeFn (Int → List α → Int → List α → Int → α))
    (n : Int) (x : List α) (incx : Int) (y : List α) (incy : Int) (h : CublasHandle) :
    Outcome α :=
  match overflow_check n [incx, incy] with
  | .error f => ⟨[], h, .error f⟩
  | .ok _ =>
    ⟨[.submit, .setPointerMode .device, .nativeCall fn.name .device [n, incx, incy]],
      { h with pointerMode := .device },
      cublasCheck h fn.name (fn.app n x incx y incy)⟩

/-- Embedding of the `rot` template: the pointer-mode switch is commented out
in the source, so no switch happens (the scalars `c`, `s` are passed by host
address); both strides are passed unmodified. -/
def rotT {α β γ : Type}
    (fn : NativeFn (Int → List α → Int → List α → Int → β → γ → List α × List α))
    (n : Int) (x : List α) (incx : Int) (y : List α) (incy : Int) (c : β) (s : γ)
    (h : CublasHandle) : Outcome (List α × List α) :=
  match overflow_check n [incx, incy] with
  | .error f => ⟨[], h, .error f⟩
  | .ok _ =>
    ⟨[.submit, .nativeCall fn.name h.pointerMode [n, incx, incy]], h,
      cublasCheck h fn.name (fn.app n x incx y incy c s)⟩

/-- Embedding of `sdsdot`: cuBLAS has no ternary form, so the binary
`cublasSdot` is issued into the result buffer (device pointer mode set), and
the host scalar `sb` is then added to the first element of the result by a
host-side read-modify-write, which synchronizes with the device write. -/
def sdsdot (n : Int) (sb : Val) (x : List Val) (incx : Int) (y : List Val) (incy : Int)
    (h : CublasHandle) : Outcome Val :=
  match overflow_check n [incx, incy] with
  | .error f => ⟨[], h, .error f⟩
  | .ok _ =>
    let base : List Event :=
      [.submit, .setPointerMode .device, .nativeCall "cublasSdot" .device [n, incx, incy]]
    let h1 : CublasHandle := { h with pointerMode := .device }
    if h.env "cublasSdot" = 0 then
      ⟨base ++ [.hostReadModifyWrite], h1, .ok (blasDot n x incx y incy + sb)⟩
    else
      ⟨base, h1, .error (.NativeCallFailure "cublasSdot" (h.env "cublasSdot"))⟩

/-- Host-side cast of the single-precision scratch value to the caller's
double precision (exact on the modelled values; the narrowing of the native
computation itself is the documented accepted degradation). -/
def widenToDouble (v : Val) : Val := v

/-- Embedding of the mixed-precision `dot` overload (float inputs, double
result): `cublasSdot` is issued into a one-element single-precision scratch
buffer (device pointer mode set), then the scratch value is read back on the
host, cast to double and written into the caller's double result buffer. -/
def dot_mixed (n : Int) (x : List Val) (incx : Int) (y : List Val) (incy : Int)
    (h : CublasHandle) : Outcome Val :=
  match overflow_check n [incx, incy] with
  | .error f => ⟨[], h, .error f⟩
  | .ok _ =>
    let base : List Event :=
      [.submit, .setPointerMode .device, .nativeCall "cublasSdot" .device [n, incx, incy]]
    let h1 : CublasHandle := { h with pointerMode := .device }
    if h.env "cublasSdot" = 0 then
      ⟨base ++ [.hostWrite], h1, .ok (widenToDouble (blasDot n x incx y incy))⟩
    else
      ⟨base, h1, .error (.NativeCallFailure "cublasSdot" (h.env "cublasSdot"))⟩

/-- Embedding of the `rotmg` template: no count/stride arguments (hence no
overflow check); device pointer mode is set; the host scalar `y1` is wrapped
into a one-element device buffer before the call. -/
def rotmgT {α : Type} (fn : NativeFn (α → α → α → α → List α → α × α × α × List α))
    (d1 d2 x1 y1 : α) (param : List α) (h : CublasHandle) :
    Outcome (α × α × α × List α) :=
  ⟨[.submit, .setPointerMode .device, .nativeCall fn.name .device []],
    { h with pointerMode := .device },
    cublasCheck h fn.name (fn.app d1 d2 x1 y1 param)⟩

/-- Embedding of the `iamax` template: cuBLAS returns a 32-bit, one-based
index, so the native call is issued into a one-element `int` scratch buffer
(device pointer mode set, stride passed unmodified); the scratch value is
then read back on the host, converted to the zero-based 64-bit convention as
`max(scratch - 1, 0)` and written into the caller's `int64_t` result
buffer. -/
def iamaxT {α : Type} (fn : NativeFn (Int → List α → Int → Int)) (n : Int) (x : List α)
    (incx : Int) (h : CublasHandle) : Outcome Int :=
  match overflow_check n [incx] with
  | .error f => ⟨[], h, .error f⟩
  | .ok _ =>
    let base : List Event :=
      [.submit, .setPointerMode .device, .nativeCall fn.name .device [n, incx]]
    let h1 : CublasHandle := { h with pointerMode := .device }
    if h.env fn.name = 0 then
      ⟨base ++ [.hostWrite], h1, .ok (max (fn.app n x incx - 1) 0)⟩
    else
      ⟨base, h1, .error (.NativeCallFailure fn.name (h.env fn.name))⟩

/-- Embedding of the `swap` template: no pointer-mode switch; both strides
are passed unmodified. -/
def swapT {α : Type} (fn : NativeFn (Int → List α → Int → List α → Int → List α × List α))
    (n : Int) (x : List α) (incx : Int) (y : List α) (incy : Int) (h : CublasHandle) :
    Outcome (List α × List α) :=
  match overflow_check n [incx, incy] with
  | .error f => ⟨[], h, .error f⟩
  | .ok _ =>
    ⟨[.submit, .nativeCall fn.name h.pointerMode [n, incx, incy]], h,
      cublasCheck h fn.name (fn.app n x incx y incy)⟩

/-- Embedding of the `iamin` template: identical adapter structure to
`iamax` (32-bit one-based scratch, host conversion `max(scratch - 1, 0)`
into the caller's `int64_t` result buffer). -/
def iaminT {α : Type} (fn : NativeFn (Int → List α → Int → Int)) (n : Int) (x : List α)
    (incx : Int) (h : CublasHandle) : Outcome Int :=
  match overflow_check n [incx] with
  | .error f => ⟨[], h, .error f⟩
  | .ok _ =>
    let base : List Event :=
      [.submit, .setPointerMode .device, .nativeCall fn.name .device [n, incx]]
    let h1 : CublasHandle := { h with pointerMode := .device }
    if h.env fn.name = 0 then
      ⟨base ++ [.hostWrite], h1, .ok (max (fn.app n x incx - 1) 0)⟩
    else
      ⟨base, h1, .error (.NativeCallFailure fn.name (h.env fn.name))⟩

/-- Embedding of the `nrm2` template: device pointer mode is set (the result
is written to a device buffer) and `std::abs(incx)` is passed because NRM2
does not support a negative index. -/
def nrm2T {α β : Type} (fn : NativeFn (Int → List α → Int → β)) (n : Int) (x : List α)
    (incx : Int) (h : CublasHandle) : Outcome β :=
  match overflow_check n [incx] with
  | .error f => ⟨[], h, .error f⟩
  | .ok _ =>
    ⟨[.submit, .setPointerMode .device, .nativeCall fn.name .device [n, intAbs incx]],
      { h with pointerMode := .device },
      cublasCheck h fn.name (fn.app n x (intAbs incx))⟩

/-- Model of the vendor `cublasSdot` routine as a `NativeFn` (for
instantiating the `dot` template). -/
def cublasSdotFn : NativeFn (Int → List Val → Int → List Val → Int → Val) :=
  ⟨"cublasSdot", blasDot⟩

/-- BLAS-style magnitude of a complex value: `|re| + |im|`. -/
def cabs1 (z : CplxVal) : ℚ := qabs z.1 + qabs z.2

/-- Zero-based index of the first element of largest magnitude among the
first `n` logical elements of a strided vector (positive stride). -/
def iamaxScan {α : Type} (absv : α → ℚ) (d : α) (x : List α) (inc : ℕ) (n : ℕ) : ℕ :=
  (List.range n).foldl
    (fun best i =>
      if absv (x.getD (best * inc) d) < absv (x.getD (i * inc) d) then i else best) 0

/-- Zero-based index of the first element of smallest magnitude among the
first `n` logical elements of a strided vector (positive stride). -/
def iaminScan {α : Type} (absv : α → ℚ) (d : α) (x : List α) (inc : ℕ) (n : ℕ) : ℕ :=
  (List.range n).foldl
    (fun best i =>
      if absv (x.getD (i * inc) d) < absv (x.getD (best * inc) d) then i else best) 0

/-- Model of the vendor index-of-max-magnitude routines: a one-based 32-bit
index, and 0 for a non-positive count or stride (the reference BLAS
convention cuBLAS follows). -/
def iamaxNative {α : Type} (absv : α → ℚ) (d : α) (n : Int) (x : List α) (incx : Int) :
    Int :=
  if n ≤ 0 ∨ incx ≤ 0 then 0
  else (iamaxScan absv d x incx.toNat n.toNat : Int) + 1

/-- Model of the vendor index-of-min-magnitude routines: a one-based 32-bit
index, and 0 for a non-positive count or stride. -/
def iaminNative {α : Type} (absv : α → ℚ) (d : α) (n : Int) (x : List α) (incx : Int) :
    Int :=
  if n ≤ 0 ∨ incx ≤ 0 then 0
  else (iaminScan absv d x incx.toNat n.toNat : Int) + 1

/-- Models of the four vendor `iamax` instantiations (real single/double on
rational values, complex single/double on rational pairs). -/
def cublasIsamax : NativeFn (Int → List Val → Int → Int) :=
  ⟨"cublasIsamax", iamaxNative qabs 0⟩

def cublasIdamax : NativeFn (Int → List Val → Int → Int) :=
  ⟨"cublasIdamax", iamaxNative qabs 0⟩

def cublasIcamax : NativeFn (Int → List CplxVal → Int → Int) :=
  ⟨"cublasIcamax", iamaxNative cabs1 (0, 0)⟩

def cublasIzamax : NativeFn (Int → List CplxVal → Int → Int) :=
  ⟨"cublasIzamax", iamaxNative cabs1 (0, 0)⟩

/-- Models of the four vendor `iamin` instantiations. -/
def cublasIsamin : NativeFn (Int → List Val → Int → Int) :=
  ⟨"cublasIsamin", iaminNative qabs 0⟩

def cublasIdamin : NativeFn (Int → List Val → Int → Int) :=
  ⟨"cublasIdamin", iaminNative qabs 0⟩

def cublasIcamin : NativeFn (Int → List CplxVal → Int → Int) :=
  ⟨"cublasIcamin", iaminNative cabs1 (0, 0)⟩

def cublasIzamin : NativeFn (Int → List CplxVal → Int → Int) :=
  ⟨"cublasIzamin", iaminNative cabs1 (0, 0)⟩

/-- A SYCL queue, abstracted to the identity of the native CUDA context it
targets (the only attribute the handle cache keys on). -/
structure SyclQueue where
  nativeContext : ℕ
deriving DecidableEq, Repr

/-- Modelled from the spec: `CublasScopedContextHandler` is declared in
`cublas_scope_handle.hpp`, which is not among the provided sources.  Per the
spec the capability provider owns a per-context cache mapping a native
context identity to a lazily-created cuBLAS handle, creating at most one
handle per context. -/
structure HandleCache where
  entries : List (ℕ × ℕ)
  nextHandle : ℕ
deriving DecidableEq, Repr

/-- Modelled from the spec: `CublasScopedContextHandler::get_handle` returns
the cached handle for the queue's native context when one exists, and
otherwise creates a fresh native handle, records it for that context and
returns it. -/
def get_handle (c : HandleCache) (q : SyclQueue) : ℕ × HandleCache :=
  match c.entries.lookup q.nativeContext with
  | some hd => (hd, c)
  | none =>
    (c.nextHandle, ⟨(q.nativeContext, c.nextHandle) :: c.entries, c.nextHandle + 1⟩)

/-- The all-success native environment. -/
def env0 : String → Int := fun _ => 0

/-- A fresh handle in the default (host) pointer mode with an all-success
native environment. -/
def h0 : CublasHandle := ⟨.host, env0⟩

/-- A handle whose native environment fails every call with status 13. -/
def hFail : CublasHandle := ⟨.host, fun _ => 13⟩

/-- Mathematical strided scaling (model of the vendor `cublasSscal`): the
touched logical positions are multiplied by `a`. -/
def blasScal (n : Int) (a : Val) (x : List Val) (incx : Int) : List Val :=
  x.mapIdx fun p v =>
    if (List.range n.toNat).any (fun i => i * incx.toNat == p) then a * v else v

/-- Model of the vendor `cublasSscal` routine. -/
def cublasSscal : NativeFn (Int → Val → List Val → Int → List Val) :=
  ⟨"cublasSscal", blasScal⟩

/-- The event is a native library call. -/
def Event.isNativeCall : Event → Bool
  | .nativeCall _ _ _ => true
  | _ => false

/-- Number of native library calls in a trace. -/
def nativeCallCount (tr : List Event) : ℕ :=
  (tr.filter Event.isNativeCall).length

/-- The trace switches the handle to device pointer mode immediately before a
native call, which is then issued in device mode. -/
def devModeSetBeforeCall (tr : List Event) : Prop :=
  ∃ i name args, tr.get? i = some (.setPointerMode .device) ∧
    tr.get? (i + 1) = some (.nativeCall name .device args)

theorem intAbs_eq_abs (v : Int) : intAbs v = |v| := (Int.abs_eq_natAbs v).symm

theorem intAbs_intAbs (v : Int) : intAbs (intAbs v) = intAbs v := by
  simp [intAbs]

theorem maxAbsStride_intAbs (s : Int) :
    maxAbsStride [intAbs s] = maxAbsStride [s] := by
  simp [maxAbsStride, intAbs]

theorem overflow_check_pos (n : Int) (ss : List Int)
    (hfit : fitsNativeInt (n * maxAbsStride ss)) : overflow_check n ss = .ok () := by
  simp [overflow_check, hfit]

theorem overflow_check_neg (n : Int) (ss : List Int)
    (hfit : ¬ fitsNativeInt (n * maxAbsStride ss)) :
    overflow_check n ss = .error .OverflowError := by
  simp [overflow_check, hfit]

/-- Claim C1: for every level-1 routine taking a count `n` and one or more
strides (asum, scal, axpy, rotm, copy, dot and its conjugated/unconjugated
variants, rot, sdsdot, the mixed-precision dot, iamax, swap, iamin, nrm2):
if `n * max(|stride|)` overflows the native integer width the routine faults
with `OverflowError` and enqueues nothing (empty event trace, so no submit
occurs); if it fits, no `OverflowError` is raised. -/
theorem level1_overflow_gate :
    (∀ (α β : Type) (fn : NativeFn (Int → List α → Int → β)) (n : Int) (x : List α)
        (incx : Int) (h : CublasHandle),
      (¬ fitsNativeInt (n * maxAbsStride [incx]) →
        asumT fn n x incx h = ⟨[], h, .error .OverflowError⟩) ∧
      (fitsNativeInt (n * maxAbsStride [incx]) →
        (asumT fn n x incx h).res ≠ .error .OverflowError)) ∧
    (∀ (α β : Type) (fn : NativeFn (Int → α → List β → Int → List β)) (n : Int) (a : α)
        (x : List β) (incx : Int) (h : CublasHandle),
      (¬ fitsNativeInt (n * maxAbsStride [incx]) →
        scalT fn n a x incx h = ⟨[], h, .error .OverflowError⟩) ∧
      (fitsNativeInt (n * maxAbsStride [incx]) →
        (scalT fn n a x incx h).res ≠ .error .OverflowError)) ∧
    (∀ (α : Type) (fn : NativeFn (Int → α → List α → Int → List α → Int → List α))
        (n : Int) (alpha : α) (x : List α) (incx : Int) (y : List α) (incy : Int)
        (h : CublasHandle),
      (¬ fitsNativeInt (n * maxAbsStride [incx, incy]) →
        axpyT fn n alpha x incx y incy h = ⟨[], h, .error .OverflowError⟩) ∧
      (fitsNativeInt (n * maxAbsStride [incx, incy]) →
        (axpyT fn n alpha x incx y incy h).res ≠ .error .OverflowError)) ∧
    (∀ (α : Type) (fn : NativeFn (Int → List α → Int → List α → Int → List α → List α × List α))
        (n : Int) (x : List α) (incx : Int) (y : List α) (incy : Int) (param : List α)
        (h : CublasHandle),
      (¬ fitsNativeInt (n * maxAbsStride [incx, incy]) →
        rotmT fn n x incx y incy param h = ⟨[], h, .error .OverflowError⟩) ∧
      (fitsNativeInt (n * maxAbsStride [incx, incy]) →
        (rotmT fn n x incx y incy param h).res ≠ .error .OverflowError)) ∧
    (∀ (α : Type) (fn : NativeFn (Int → List α → Int → List α → Int → List α)) (n : Int)
        (x : List α) (incx : Int) (y : List α) (incy : Int) (h : CublasHandle),
      (¬ fitsNativeInt (n * maxAbsStride [incx, incy]) →
        copyT fn n x incx y incy h = ⟨[], h, .error .OverflowError⟩) ∧
      (fitsNativeInt (n * maxAbsStride [incx, incy]) →
        (copyT fn n x incx y incy h).res ≠ .error .OverflowError)) ∧
    (∀ (α : Type) (fn : NativeFn (Int → List α → Int → List α → Int → α)) (n : Int)
        (x : List α) (incx : Int) (y : List α) (incy : Int) (h : CublasHandle),
      (¬ fitsNativeInt (n * maxAbsStride [incx, incy]) →
        dotT fn n x incx y incy h = ⟨[], h, .error .OverflowError⟩) ∧
      (fitsNativeInt (n * maxAbsStride [incx, incy]) →
        (dotT fn n x incx y incy h).res ≠ .error .OverflowError)) ∧
    (∀ (α β γ : Type)
        (fn : NativeFn (Int → List α → Int → List α → Int → β → γ → List α × List α))
        (n : Int) (x : List α) (incx : Int) (y : List α) (incy : Int) (c : β) (s : γ)
        (h : CublasHandle),
      (¬ fitsNativeInt (n * maxAbsStride [incx, incy]) →
        rotT fn n x incx y incy c s h = ⟨[], h, .error .OverflowError⟩) ∧
      (fitsNativeInt (n * maxAbsStride [incx, incy]) →
        (rotT fn n x incx y incy c s h).res ≠ .error .OverflowError)) ∧
    (∀ (n : Int) (sb : Val) (x : List Val) (incx : Int) (y : List Val) (incy : Int)
        (h : CublasHandle),
      (¬ fitsNativeInt (n * maxAbsStride [incx, incy]) →
        sdsdot n sb x incx y incy h = ⟨[], h, .error .OverflowError⟩) ∧
      (fitsNativeInt (n * maxAbsStride [incx, incy]) →
        (sdsdot n sb x incx y incy h).res ≠ .error .OverflowError)) ∧
    (∀ (n : Int) (x : List Val) (incx : Int) (y : List Val) (incy : Int) (h : CublasHandle),
      (¬ fitsNativeInt (n * maxAbsStride [incx, incy]) →
        dot_mixed n x incx y incy h = ⟨[], h, .error .OverflowError⟩) ∧
      (fitsNativeInt (n * maxAbsStride [incx, incy]) →
        (dot_mixed n x incx y incy h).res ≠ .error .OverflowError)) ∧
    (∀ (α : Type) (fn : NativeFn (Int → List α → Int → Int)) (n : Int) (x : List α)
        (incx : Int) (h : CublasHandle),
      (¬ fitsNativeInt (n * maxAbsStride [incx]) →
        iamaxT fn n x incx h = ⟨[], h, .error .OverflowError⟩) ∧
      (fitsNativeInt (n * maxAbsStride [incx]) →
        (iamaxT fn n x incx h).res ≠ .error .OverflowError)) ∧
    (∀ (α : Type) (fn : NativeFn (Int → List α → Int → List α → Int → List α × List α))
        (n : Int) (x : List α) (incx : Int) (y : List α) (incy : Int) (h : CublasHandle),
      (¬ fitsNativeInt (n * maxAbsStride [incx, incy]) →
        swapT fn n x incx y incy h = ⟨[], h, .error .OverflowError⟩) ∧
      (fitsNativeInt (n * maxAbsStride [incx, incy]) →
        (swapT fn n x incx y incy h).res ≠ .error .OverflowError)) ∧
    (∀ (α : Type) (fn : NativeFn (Int → List α → Int → Int)) (n : Int) (x : List α)
        (incx : Int) (h : CublasHandle),
      (¬ fitsNativeInt (n * maxAbsStride [incx]) →
        iaminT fn n x incx h = ⟨[], h, .error .OverflowError⟩) ∧
      (fitsNativeInt (n * maxAbsStride [incx]) →
        (iaminT fn n x incx h).res ≠ .error .OverflowError)) ∧
    (∀ (α β : Type) (fn : NativeFn (Int → List α → Int → β)) (n : Int) (x : List α)
        (incx : Int) (h : CublasHandle),
      (¬ fitsNativeInt (n * maxAbsStride [incx]) →
        nrm2T fn n x incx h = ⟨[], h, .error .OverflowError⟩) ∧
      (fitsNativeInt (n * maxAbsStride [incx]) →
        (nrm2T fn n x incx h).res ≠ .error .OverflowError)) := by
  refine ⟨?_, ?_, ?_, ?_, ?_, ?_, ?_, ?_, ?_, ?_, ?_, ?_, ?_⟩ <;>
    · intros
      constructor
      · intro hov
        simp [asumT, scalT, axpyT, rotmT, copyT, dotT, rotT, sdsdot, dot_mixed, iamaxT,
          swapT, iaminT, nrm2T, overflow_check, hov]
      · intro hfit
        simp [asumT, scalT, axpyT, rotmT, copyT, dotT, rotT, sdsdot, dot_mixed, iamaxT,
          swapT, iaminT, nrm2T, overflow_check, hfit, cublasCheck]
        split <;> simp

/-- Witness for C1: a concrete overflowing `(n, incx)` pair faults with
`OverflowError` and enqueues nothing, and a concrete fitting pair does not
raise `OverflowError`. -/
theorem level1_overflow_gate_witness :
    asumT cublasSasum (2 ^ 40) [(1 : Val)] (2 ^ 40) h0 = ⟨[], h0, .error .OverflowError⟩ ∧
    (asumT cublasSasum 3 [(-3 : Val), 4, -5] 1 h0).res ≠ .error .OverflowError :=
  ⟨(level1_overflow_gate.1 Val Val cublasSasum (2 ^ 40) [(1 : Val)] (2 ^ 40) h0).1
      (by decide),
   (level1_overflow_gate.1 Val Val cublasSasum 3 [(-3 : Val), 4, -5] 1 h0).2 (by decide)⟩

/-- Claim C2: for every supported element type, `iamax` and `iamin` execute
the native call into a narrow 32-bit `int` scratch buffer, transfer the
scratch value to host, convert it to the 64-bit zero-based convention as
`max(narrow_result - 1, 0)` and write it into the caller's `int64_t` result
buffer; in particular, since the vendor routines return 0 for a non-positive
stride, the value written for every input vector and every `incx ≤ 0` is
exactly 0. -/
theorem iamax_iamin_result_emission :
    (∀ (α : Type) (fn : NativeFn (Int → List α → Int → Int)) (n : Int) (x : List α)
        (incx : Int) (h : CublasHandle),
      h.env fn.name = 0 → fitsNativeInt (n * maxAbsStride [incx]) →
      (iamaxT fn n x incx h).trace =
        [.submit, .setPointerMode .device, .nativeCall fn.name .device [n, incx],
          .hostWrite] ∧
      (iamaxT fn n x incx h).res = .ok (max (fn.app n x incx - 1) 0)) ∧
    (∀ (α : Type) (fn : NativeFn (Int → List α → Int → Int)) (n : Int) (x : List α)
        (incx : Int) (h : CublasHandle),
      h.env fn.name = 0 → fitsNativeInt (n * maxAbsStride [incx]) →
      (iaminT fn n x incx h).trace =
        [.submit, .setPointerMode .device, .nativeCall fn.name .device [n, incx],
          .hostWrite] ∧
      (iaminT fn n x incx h).res = .ok (max (fn.app n x incx - 1) 0)) ∧
    (∀ (α : Type) (fn : NativeFn (Int → List α → Int → Int)),
      (∀ (m : Int) (v : List α) (s : Int), s ≤ 0 → fn.app m v s = 0) →
      ∀ (n : Int) (x : List α) (incx : Int) (h : CublasHandle),
        incx ≤ 0 → h.env fn.name = 0 → fitsNativeInt (n * maxAbsStride [incx]) →
        (iamaxT fn n x incx h).res = .ok 0 ∧ (iaminT fn n x incx h).res = .ok 0) ∧
    (∀ (α : Type) (absv : α → ℚ) (d : α) (m : Int) (v : List α) (s : Int), s ≤ 0 →
      iamaxNative absv d m v s = 0 ∧ iaminNative absv d m v s = 0) := by
  refine ⟨?_, ?_, ?_, ?_⟩
  · intro α fn n x incx h he hfit
    constructor <;> simp [iamaxT, overflow_check, hfit, he]
  · intro α fn n x incx h he hfit
    constructor <;> simp [iaminT, overflow_check, hfit, he]
  · intro α fn hzero n x incx h hincx he hfit
    constructor <;>
      simp [iamaxT, iaminT, overflow_check, hfit, he, hzero n x incx hincx]
  · intro α absv d m v s hs
    constructor <;> simp [iamaxNative, iaminNative, hs]

/-- Witness for C2: a real-double vector with `incx = -1` yields result 0
through the `iamax` adapter, a complex vector with `incx = 0` yields 0
through the `iamin` adapter, and a positive-stride instance is converted via
`max(narrow - 1, 0)`. -/
theorem iamax_iamin_result_emission_witness :
    (iamaxT cublasIdamax 3 [(1 : Val), -9, 3] (-1) h0).res = .ok 0 ∧
    (iaminT cublasIzamin 2 [((1 : ℚ), (1 : ℚ)), ((2 : ℚ), (2 : ℚ))] 0 h0).res = .ok 0 ∧
    (iamaxT cublasIdamax 3 [(1 : Val), -9, 3] 1 h0).res =
      .ok (max (cublasIdamax.app 3 [(1 : Val), -9, 3] 1 - 1) 0) :=
  ⟨(iamax_iamin_result_emission.2.2.1 Val cublasIdamax
      (fun m v s hs => by simp [cublasIdamax, iamaxNative, hs])
      3 [(1 : Val), -9, 3] (-1) h0 (by decide) rfl (by decide)).1,
   (iamax_iamin_result_emission.2.2.1 CplxVal cublasIzamin
      (fun m v s hs => by simp [cublasIzamin, iaminNative, hs])
      2 [((1 : ℚ), (1 : ℚ)), ((2 : ℚ), (2 : ℚ))] 0 h0 (by decide) rfl (by decide)).2,
   (iamax_iamin_result_emission.1 Val cublasIdamax 3 [(1 : Val), -9, 3] 1 h0 rfl
      (by decide)).2⟩

/-- Claim C3: every routine that writes a scalar result into device memory
(asum, the dot variants including the sdsdot and mixed-precision shims, nrm2,
rotg, rotmg) switches the shared native handle into device pointer mode
immediately before its one native call — for every incoming handle state, so
the switch is re-issued on each invocation rather than assumed sticky across
unrelated calls on the same cached handle. -/
theorem scalar_result_device_mode :
    (∀ (α β : Type) (fn : NativeFn (Int → List α → Int → β)) (n : Int) (x : List α)
        (incx : Int) (h : CublasHandle), fitsNativeInt (n * maxAbsStride [incx]) →
      devModeSetBeforeCall (asumT fn n x incx h).trace) ∧
    (∀ (α : Type) (fn : NativeFn (Int → List α → Int → List α → Int → α)) (n : Int)
        (x : List α) (incx : Int) (y : List α) (incy : Int) (h : CublasHandle),
      fitsNativeInt (n * maxAbsStride [incx, incy]) →
      devModeSetBeforeCall (dotT fn n x incx y incy h).trace) ∧
    (∀ (n : Int) (sb : Val) (x : List Val) (incx : Int) (y : List Val) (incy : Int)
        (h : CublasHandle), fitsNativeInt (n * maxAbsStride [incx, incy]) →
      devModeSetBeforeCall (sdsdot n sb x incx y incy h).trace) ∧
    (∀ (n : Int) (x : List Val) (incx : Int) (y : List Val) (incy : Int)
        (h : CublasHandle), fitsNativeInt (n * maxAbsStride [incx, incy]) →
      devModeSetBeforeCall (dot_mixed n x incx y incy h).trace) ∧
    (∀ (α β : Type) (fn : NativeFn (Int → List α → Int → β)) (n : Int) (x : List α)
        (incx : Int) (h : CublasHandle), fitsNativeInt (n * maxAbsStride [incx]) →
      devModeSetBeforeCall (nrm2T fn n x incx h).trace) ∧
    (∀ (α β : Type) (fn : NativeFn (α → α → β → α → α × α × β × α)) (a b : α) (c : β)
        (s : α) (h : CublasHandle), devModeSetBeforeCall (rotgT fn a b c s h).trace) ∧
    (∀ (α : Type) (fn : NativeFn (α → α → α → α → List α → α × α × α × List α))
        (d1 d2 x1 y1 : α) (param : List α) (h : CublasHandle),
      devModeSetBeforeCall (rotmgT fn d1 d2 x1 y1 param h).trace) := by
  refine ⟨?_, ?_, ?_, ?_, ?_, ?_, ?_⟩
  · intro α β fn n x incx h hfit
    exact ⟨1, fn.name, [n, intAbs incx], by simp [asumT, overflow_check, hfit],
      by simp [asumT, overflow_check, hfit]⟩
  · intro α fn n x incx y incy h hfit
    exact ⟨1, fn.name, [n, incx, incy], by simp [dotT, overflow_check, hfit],
      by simp [dotT, overflow_check, hfit]⟩
  · intro n sb x incx y incy h hfit
    refine ⟨1, "cublasSdot", [n, incx, incy], ?_, ?_⟩ <;>
      by_cases he : h.env "cublasSdot" = 0 <;> simp [sdsdot, overflow_check, hfit, he]
  · intro n x incx y incy h hfit
    refine ⟨1, "cublasSdot", [n, incx, incy], ?_, ?_⟩ <;>
      by_cases he : h.env "cublasSdot" = 0 <;> simp [dot_mixed, overflow_check, hfit, he]
  · intro α β fn n x incx h hfit
    exact ⟨1, fn.name, [n, intAbs incx], by simp [nrm2T, overflow_check, hfit],
      by simp [nrm2T, overflow_check, hfit]⟩
  · intro α β fn a b c s h
    exact ⟨1, fn.name, [], by simp [rotgT], by simp [rotgT]⟩
  · intro α fn d1 d2 x1 y1 param h
    exact ⟨1, fn.name, [], by simp [rotmgT], by simp [rotmgT]⟩

/-- Witness for C3: on a freshly-acquired handle in the default host pointer
mode, concrete asum and sdsdot invocations place a device pointer-mode switch
immediately before their native call. -/
theorem scalar_result_device_mode_witness :
    devModeSetBeforeCall (asumT cublasSasum 3 [(-3 : Val), 4, -5] 1 h0).trace ∧
    devModeSetBeforeCall (sdsdot 3 (1 / 2) [(1 : Val), 2, 3] 1 [(4 : Val), 5, 6] 1 h0).trace :=
  ⟨scalar_result_device_mode.1 Val Val cublasSasum 3 [(-3 : Val), 4, -5] 1 h0 (by decide),
   scalar_result_device_mode.2.2.1 3 (1 / 2) [(1 : Val), 2, 3] 1 [(4 : Val), 5, 6] 1 h0
     (by decide)⟩

/-- Claim C4: `sdsdot` computes the native binary single-precision dot
product of `x` and `y` into the result buffer and then, after the device
call completes (the host read-modify-write following the native call in the
trace), adds the host scalar `sb` to the first element of the result; for
`x = [1,2,3]`, `y = [4,5,6]`, `incx = incy = 1`, `sb = 0.5` the final result
is `32.5`. -/
theorem sdsdot_host_offset_emulation :
    (∀ (n : Int) (sb : Val) (x : List Val) (incx : Int) (y : List Val) (incy : Int)
        (h : CublasHandle),
      h.env "cublasSdot" = 0 → fitsNativeInt (n * maxAbsStride [incx, incy]) →
      sdsdot n sb x incx y incy h =
        ⟨[.submit, .setPointerMode .device, .nativeCall "cublasSdot" .device [n, incx, incy],
          .hostReadModifyWrite], { h with pointerMode := .device },
          .ok (blasDot n x incx y incy + sb)⟩) ∧
    (sdsdot 3 (1 / 2) [(1 : Val), 2, 3] 1 [(4 : Val), 5, 6] 1 h0).res = .ok (65 / 2) := by
  constructor
  · intro n sb x incx y incy h he hfit
    simp [sdsdot, overflow_check, hfit, he]
  · norm_num [sdsdot, overflow_check, fitsNativeInt, INT32_MIN, INT32_MAX, maxAbsStride,
      intAbs, blasDot, lelt, blasOffset, h0, env0, show Int.toNat 3 = 3 from rfl,
      List.range_succ]

/-- Witness for C4: the general clause applied at the spec's concrete
scenario inputs. -/
theorem sdsdot_host_offset_emulation_witness :
    sdsdot 3 (1 / 2) [(1 : Val), 2, 3] 1 [(4 : Val), 5, 6] 1 h0 =
      ⟨[.submit, .setPointerMode .device, .nativeCall "cublasSdot" .device [3, 1, 1],
        .hostReadModifyWrite], { h0 with pointerMode := .device },
        .ok (blasDot 3 [(1 : Val), 2, 3] 1 [(4 : Val), 5, 6] 1 + 1 / 2)⟩ :=
  sdsdot_host_offset_emulation.1 3 (1 / 2) [(1 : Val), 2, 3] 1 [(4 : Val), 5, 6] 1 h0 rfl
    (by decide)

/-- Claim C5: the mixed-precision dot overload (float inputs, double result)
executes the native single-precision `cublasSdot` into a one-element
single-precision scratch buffer, then writes the host-side cast of that value
into the caller's double result buffer, so the final double result equals the
widening of the single-precision dot product. -/
theorem mixed_dot_widening :
    ∀ (n : Int) (x : List Val) (incx : Int) (y : List Val) (incy : Int) (h : CublasHandle),
      h.env "cublasSdot" = 0 → fitsNativeInt (n * maxAbsStride [incx, incy]) →
      dot_mixed n x incx y incy h =
        ⟨[.submit, .setPointerMode .device, .nativeCall "cublasSdot" .device [n, incx, incy],
          .hostWrite], { h with pointerMode := .device },
          .ok (widenToDouble (blasDot n x incx y incy))⟩ := by
  intro n x incx y incy h he hfit
  simp [dot_mixed, overflow_check, hfit, he]

/-- Witness for C5 at concrete inputs. -/
theorem mixed_dot_widening_witness :
    dot_mixed 3 [(1 : Val), 2, 3] 1 [(4 : Val), 5, 6] 1 h0 =
      ⟨[.submit, .setPointerMode .device, .nativeCall "cublasSdot" .device [3, 1, 1],
        .hostWrite], { h0 with pointerMode := .device },
        .ok (widenToDouble (blasDot 3 [(1 : Val), 2, 3] 1 [(4 : Val), 5, 6] 1))⟩ :=
  mixed_dot_widening 3 [(1 : Val), 2, 3] 1 [(4 : Val), 5, 6] 1 h0 rfl (by decide)

/-- Claim C6: asum and nrm2 pass `std::abs(incx)` to the native routine —
so for every input vector and every negative stride `s` the whole invocation
outcome equals the outcome with stride `|s|` — while dot, axpy, copy, swap
and rot pass the caller's strides to the native routine unmodified, sign
included (the native-call event records exactly `[n, incx, incy]`). -/
theorem stride_sign_conventions :
    (∀ (α β : Type) (fn : NativeFn (Int → List α → Int → β)) (n : Int) (x : List α)
        (s : Int) (h : CublasHandle), s < 0 →
      asumT fn n x s h = asumT fn n x |s| h) ∧
    (∀ (α β : Type) (fn : NativeFn (Int → List α → Int → β)) (n : Int) (x : List α)
        (s : Int) (h : CublasHandle), s < 0 →
      nrm2T fn n x s h = nrm2T fn n x |s| h) ∧
    (∀ (α : Type) (fn : NativeFn (Int → List α → Int → List α → Int → α)) (n : Int)
        (x : List α) (incx : Int) (y : List α) (incy : Int) (h : CublasHandle),
      fitsNativeInt (n * maxAbsStride [incx, incy]) →
      (dotT fn n x incx y incy h).trace =
        [.submit, .setPointerMode .device, .nativeCall fn.name .device [n, incx, incy]]) ∧
    (∀ (α : Type) (fn : NativeFn (Int → α → List α → Int → List α → Int → List α))
        (n : Int) (alpha : α) (x : List α) (incx : Int) (y : List α) (incy : Int)
        (h : CublasHandle), fitsNativeInt (n * maxAbsStride [incx, incy]) →
      (axpyT fn n alpha x incx y incy h).trace =
        [.submit, .nativeCall fn.name h.pointerMode [n, incx, incy]]) ∧
    (∀ (α : Type) (fn : NativeFn (Int → List α → Int → List α → Int → List α)) (n : Int)
        (x : List α) (incx : Int) (y : List α) (incy : Int) (h : CublasHandle),
      fitsNativeInt (n * maxAbsStride [incx, incy]) →
      (copyT fn n x incx y incy h).trace =
        [.submit, .nativeCall fn.name h.pointerMode [n, incx, incy]]) ∧
    (∀ (α : Type) (fn : NativeFn (Int → List α → Int → List α → Int → List α × List α))
        (n : Int) (x : List α) (incx : Int) (y : List α) (incy : Int) (h : CublasHandle),
      fitsNativeInt (n * maxAbsStride [incx, incy]) →
      (swapT fn n x incx y incy h).trace =
        [.submit, .nativeCall fn.name h.pointerMode [n, incx, incy]]) ∧
    (∀ (α β γ : Type)
        (fn : NativeFn (Int → List α → Int → List α → Int → β → γ → List α × List α))
        (n : Int) (x : List α) (incx : Int) (y : List α) (incy : Int) (c : β) (s : γ)
        (h : CublasHandle), fitsNativeInt (n * maxAbsStride [incx, incy]) →
      (rotT fn n x incx y incy c s h).trace =
        [.submit, .nativeCall fn.name h.pointerMode [n, incx, incy]]) := by
  refine ⟨?_, ?_, ?_, ?_, ?_, ?_, ?_⟩
  · intro α β fn n x s h _
    rw [← intAbs_eq_abs]
    simp [asumT, overflow_check, maxAbsStride_intAbs, intAbs_intAbs]
  · intro α β fn n x s h _
    rw [← intAbs_eq_abs]
    simp [nrm2T, overflow_check, maxAbsStride_intAbs, intAbs_intAbs]
  · intro α fn n x incx y incy h hfit
    simp [dotT, overflow_check, hfit]
  · intro α fn n alpha x incx y incy h hfit
    simp [axpyT, overflow_check, hfit]
  · intro α fn n x incx y incy h hfit
    simp [copyT, overflow_check, hfit]
  · intro α fn n x incx y incy h hfit
    simp [swapT, overflow_check, hfit]
  · intro α β γ fn n x incx y incy c s h hfit
    simp [rotT, overflow_check, hfit]

/-- Witness for C6: a concrete asum invocation with stride `-1` coincides
with the invocation with stride `1`, and a concrete dot invocation records
the negative strides unmodified. -/
theorem stride_sign_conventions_witness :
    asumT cublasSasum 3 [(-3 : Val), 4, -5] (-1) h0 =
      asumT cublasSasum 3 [(-3 : Val), 4, -5] |(-1 : Int)| h0 ∧
    (dotT cublasSdotFn 2 [(1 : Val), 2] (-1) [(3 : Val), 4] (-2) h0).trace =
      [.submit, .setPointerMode .device, .nativeCall "cublasSdot" .device [2, -1, -2]] :=
  ⟨stride_sign_conventions.1 Val Val cublasSasum 3 [(-3 : Val), 4, -5] (-1) h0 (by decide),
   stride_sign_conventions.2.2.1 Val cublasSdotFn 2 [(1 : Val), 2] (-1) [(3 : Val), 4]
     (-2) h0 (by decide)⟩

/-- Claim C7: every routine enqueues exactly one native call per invocation
(one `nativeCall` event in the trace once validation passes), and a nonzero
native status is converted into a `NativeCallFailure` fault carrying the
routine name and the native status code, with no retry (still exactly one
native call in the trace). -/
theorem one_native_call_fault_conversion :
    (∀ (α β : Type) (fn : NativeFn (Int → List α → Int → β)) (n : Int) (x : List α)
        (incx : Int) (h : CublasHandle), fitsNativeInt (n * maxAbsStride [incx]) →
      nativeCallCount (asumT fn n x incx h).trace = 1 ∧
      (h.env fn.name ≠ 0 →
        (asumT fn n x incx h).res = .error (.NativeCallFailure fn.name (h.env fn.name)))) ∧
    (∀ (α β : Type) (fn : NativeFn (Int → α → List β → Int → List β)) (n : Int) (a : α)
        (x : List β) (incx : Int) (h : CublasHandle),
      fitsNativeInt (n * maxAbsStride [incx]) →
      nativeCallCount (scalT fn n a x incx h).trace = 1 ∧
      (h.env fn.name ≠ 0 →
        (scalT fn n a x incx h).res = .error (.NativeCallFailure fn.name (h.env fn.name)))) ∧
    (∀ (α : Type) (fn : NativeFn (Int → α → List α → Int → List α → Int → List α))
        (n : Int) (alpha : α) (x : List α) (incx : Int) (y : List α) (incy : Int)
        (h : CublasHandle), fitsNativeInt (n * maxAbsStride [incx, incy]) →
      nativeCallCount (axpyT fn n alpha x incx y incy h).trace = 1 ∧
      (h.env fn.name ≠ 0 → (axpyT fn n alpha x incx y incy h).res =
        .error (.NativeCallFailure fn.name (h.env fn.name)))) ∧
    (∀ (α β : Type) (fn : NativeFn (α → α → β → α → α × α × β × α)) (a b : α) (c : β)
        (s : α) (h : CublasHandle),
      nativeCallCount (rotgT fn a b c s h).trace = 1 ∧
      (h.env fn.name ≠ 0 →
        (rotgT fn a b c s h).res = .error (.NativeCallFailure fn.name (h.env fn.name)))) ∧
    (∀ (α : Type)
        (fn : NativeFn (Int → List α → Int → List α → Int → List α → List α × List α))
        (n : Int) (x : List α) (incx : Int) (y : List α) (incy : Int) (param : List α)
        (h : CublasHandle), fitsNativeInt (n * maxAbsStride [incx, incy]) →
      nativeCallCount (rotmT fn n x incx y incy param h).trace = 1 ∧
      (h.env fn.name ≠ 0 → (rotmT fn n x incx y incy param h).res =
        .error (.NativeCallFailure fn.name (h.env fn.name)))) ∧
    (∀ (α : Type) (fn : NativeFn (Int → List α → Int → List α → Int → List α)) (n : Int)
        (x : List α) (incx : Int) (y : List α) (incy : Int) (h : CublasHandle),
      fitsNativeInt (n * maxAbsStride [incx, incy]) →
      nativeCallCount (copyT fn n x incx y incy h).trace = 1 ∧
      (h.env fn.name ≠ 0 → (copyT fn n x incx y incy h).res =
        .error (.NativeCallFailure fn.name (h.env fn.name)))) ∧
    (∀ (α : Type) (fn : NativeFn (Int → List α → Int → List α → Int → α)) (n : Int)
        (x : List α) (incx : Int) (y : List α) (incy : Int) (h : CublasHandle),
      fitsNativeInt (n * maxAbsStride [incx, incy]) →
      nativeCallCount (dotT fn n x incx y incy h).trace = 1 ∧
      (h.env fn.name ≠ 0 → (dotT fn n x incx y incy h).res =
        .error (.NativeCallFailure fn.name (h.env fn.name)))) ∧
    (∀ (α β γ : Type)
        (fn : NativeFn (Int → List α → Int → List α → Int → β → γ → List α × List α))
        (n : Int) (x : List α) (incx : Int) (y : List α) (incy : Int) (c : β) (s : γ)
        (h : CublasHandle), fitsNativeInt (n * maxAbsStride [incx, incy]) →
      nativeCallCount (rotT fn n x incx y incy c s h).trace = 1 ∧
      (h.env fn.name ≠ 0 → (rotT fn n x incx y incy c s h).res =
        .error (.NativeCallFailure fn.name (h.env fn.name)))) ∧
    (∀ (n : Int) (sb : Val) (x : List Val) (incx : Int) (y : List Val) (incy : Int)
        (h : CublasHandle), fitsNativeInt (n * maxAbsStride [incx, incy]) →
      nativeCallCount (sdsdot n sb x incx y incy h).trace = 1 ∧
      (h.env "cublasSdot" ≠ 0 → (sdsdot n sb x incx y incy h).res =
        .error (.NativeCallFailure "cublasSdot" (h.env "cublasSdot")))) ∧
    (∀ (n : Int) (x : List Val) (incx : Int) (y : List Val) (incy : Int)
        (h : CublasHandle), fitsNativeInt (n * maxAbsStride [incx, incy]) →
      nativeCallCount (dot_mixed n x incx y incy h).trace = 1 ∧
      (h.env "cublasSdot" ≠ 0 → (dot_mixed n x incx y incy h).res =
        .error (.NativeCallFailure "cublasSdot" (h.env "cublasSdot")))) ∧
    (∀ (α : Type) (fn : NativeFn (α → α → α → α → List α → α × α × α × List α))
        (d1 d2 x1 y1 : α) (param : List α) (h : CublasHandle),
      nativeCallCount (rotmgT fn d1 d2 x1 y1 param h).trace = 1 ∧
      (h.env fn.name ≠ 0 → (rotmgT fn d1 d2 x1 y1 param h).res =
        .error (.NativeCallFailure fn.name (h.env fn.name)))) ∧
    (∀ (α : Type) (fn : NativeFn (Int → List α → Int → Int)) (n : Int) (x : List α)
        (incx : Int) (h : CublasHandle), fitsNativeInt (n * maxAbsStride [incx]) →
      nativeCallCount (iamaxT fn n x incx h).trace = 1 ∧
      (h.env fn.name ≠ 0 →
        (iamaxT fn n x incx h).res = .error (.NativeCallFailure fn.name (h.env fn.name)))) ∧
    (∀ (α : Type) (fn : NativeFn (Int → List α → Int → List α → Int → List α × List α))
        (n : Int) (x : List α) (incx : Int) (y : List α) (incy : Int) (h : CublasHandle),
      fitsNativeInt (n * maxAbsStride [incx, incy]) →
      nativeCallCount (swapT fn n x incx y incy h).trace = 1 ∧
      (h.env fn.name ≠ 0 → (swapT fn n x incx y incy h).res =
        .error (.NativeCallFailure fn.name (h.env fn.name)))) ∧
    (∀ (α : Type) (fn : NativeFn (Int → List α → Int → Int)) (n : Int) (x : List α)
        (incx : Int) (h : CublasHandle), fitsNativeInt (n * maxAbsStride [incx]) →
      nativeCallCount (iaminT fn n x incx h).trace = 1 ∧
      (h.env fn.name ≠ 0 →
        (iaminT fn n x incx h).res = .error (.NativeCallFailure fn.name (h.env fn.name)))) ∧
    (∀ (α β : Type) (fn : NativeFn (Int → List α → Int → β)) (n : Int) (x : List α)
        (incx : Int) (h : CublasHandle), fitsNativeInt (n * maxAbsStride [incx]) →
      nativeCallCount (nrm2T fn n x incx h).trace = 1 ∧
      (h.env fn.name ≠ 0 →
        (nrm2T fn n x incx h).res = .error (.NativeCallFailure fn.name (h.env fn.name)))) := by
  refine ⟨?_, ?_, ?_, ?_, ?_, ?_, ?_, ?_, ?_, ?_, ?_, ?_, ?_, ?_, ?_⟩ <;>
    · intros
      constructor
      · simp_all [asumT, scalT, axpyT, rotgT, rotmT, copyT, dotT, rotT, sdsdot,
          dot_mixed, rotmgT, iamaxT, swapT, iaminT, nrm2T, overflow_check,
          nativeCallCount, Event.isNativeCall, apply_ite]
      · intro hne
        simp_all [asumT, scalT, axpyT, rotgT, rotmT, copyT, dotT, rotT, sdsdot,
          dot_mixed, rotmgT, iamaxT, swapT, iaminT, nrm2T, overflow_check, cublasCheck]

/-- Witness for C7: on a handle whose native environment returns status 13,
a concrete asum invocation still records exactly one native call and faults
with `NativeCallFailure` carrying the routine name and code 13. -/
theorem one_native_call_fault_conversion_witness :
    nativeCallCount (asumT cublasSasum 3 [(-3 : Val), 4, -5] 1 hFail).trace = 1 ∧
    (asumT cublasSasum 3 [(-3 : Val), 4, -5] 1 hFail).res =
      .error (.NativeCallFailure "cublasSasum" 13) :=
  ⟨(one_native_call_fault_conversion.1 Val Val cublasSasum 3 [(-3 : Val), 4, -5] 1 hFail
      (by decide)).1,
   (one_native_call_fault_conversion.1 Val Val cublasSasum 3 [(-3 : Val), 4, -5] 1 hFail
      (by decide)).2 (by decide)⟩

/-- Claim C8: acquiring a native handle twice for queues sharing the same
underlying native context returns the identical cached handle (identity
modelled by the handle number) and allocates at most one native handle — the
second acquisition leaves the cache completely unchanged. -/
theorem get_handle_idempotent (c : HandleCache) (q1 q2 : SyclQueue)
    (hctx : q1.nativeContext = q2.nativeContext) :
    (get_handle (get_handle c q1).2 q2).1 = (get_handle c q1).1 ∧
    (get_handle (get_handle c q1).2 q2).2 = (get_handle c q1).2 ∧
    (get_handle c q1).2.nextHandle ≤ c.nextHandle + 1 := by
  unfold get_handle
  rw [← hctx]
  cases hl : c.entries.lookup q1.nativeContext with
  | none => simp [hl, List.lookup]
  | some hd => simp [hl]

/-- Witness for C8: starting from an empty cache, two acquisitions for
queues on context 5 return the same handle and the cache is unchanged by the
second acquisition. -/
theorem get_handle_idempotent_witness :
    (get_handle (get_handle ⟨[], 0⟩ ⟨5⟩).2 ⟨5⟩).1 = (get_handle ⟨[], 0⟩ ⟨5⟩).1 ∧
    (get_handle (get_handle ⟨[], 0⟩ ⟨5⟩).2 ⟨5⟩).2 = (get_handle ⟨[], 0⟩ ⟨5⟩).2 ∧
    (get_handle (⟨[], 0⟩ : HandleCache) ⟨5⟩).2.nextHandle ≤ 0 + 1 :=
  get_handle_idempotent ⟨[], 0⟩ ⟨5⟩ ⟨5⟩ rfl

/-- Claim C9: no routine ever sets the shared handle's pointer mode back to
host (no embedding emits a host-mode switch); the host-scalar routines scal,
axpy and rot perform no pointer-mode switch at all and issue their native
call at the handle's current mode, leaving the handle unchanged; every
scalar-result routine leaves the shared handle in device pointer mode; so
after asum runs on the same cached handle, scal, axpy and rot issue their
native call in device-pointer mode. -/
theorem pointer_mode_never_reset :
    (∀ (α β : Type) (fn : NativeFn (Int → α → List β → Int → List β)) (n : Int) (a : α)
        (x : List β) (incx : Int) (h : CublasHandle),
      fitsNativeInt (n * maxAbsStride [incx]) →
      (scalT fn n a x incx h).trace =
        [.submit, .nativeCall fn.name h.pointerMode [n, intAbs incx]] ∧
      (scalT fn n a x incx h).handle = h) ∧
    (∀ (α : Type) (fn : NativeFn (Int → α → List α → Int → List α → Int → List α))
        (n : Int) (alpha : α) (x : List α) (incx : Int) (y : List α) (incy : Int)
        (h : CublasHandle), fitsNativeInt (n * maxAbsStride [incx, incy]) →
      (axpyT fn n alpha x incx y incy h).trace =
        [.submit, .nativeCall fn.name h.pointerMode [n, incx, incy]] ∧
      (axpyT fn n alpha x incx y incy h).handle = h) ∧
    (∀ (α β γ : Type)
        (fn : NativeFn (Int → List α → Int → List α → Int → β → γ → List α × List α))
        (n : Int) (x : List α) (incx : Int) (y : List α) (incy : Int) (c : β) (s : γ)
        (h : CublasHandle), fitsNativeInt (n * maxAbsStride [incx, incy]) →
      (rotT fn n x incx y incy c s h).trace =
        [.submit, .nativeCall fn.name h.pointerMode [n, incx, incy]] ∧
      (rotT fn n x incx y incy c s h).handle = h) ∧
    (∀ (α β : Type) (fn : NativeFn (Int → List α → Int → β)) (n : Int) (x : List α)
        (incx : Int) (h : CublasHandle),
      Event.setPointerMode .host ∉ (asumT fn n x incx h).trace) ∧
    (∀ (α β : Type) (fn : NativeFn (Int → α → List β → Int → List β)) (n : Int) (a : α)
        (x : List β) (incx : Int) (h : CublasHandle),
      Event.setPointerMode .host ∉ (scalT fn n a x incx h).trace) ∧
    (∀ (α : Type) (fn : NativeFn (Int → α → List α → Int → List α → Int → List α))
        (n : Int) (alpha : α) (x : List α) (incx : Int) (y : List α) (incy : Int)
        (h : CublasHandle),
      Event.setPointerMode .host ∉ (axpyT fn n alpha x incx y incy h).trace) ∧
    (∀ (α β : Type) (fn : NativeFn (α → α → β → α → α × α × β × α)) (a b : α) (c : β)
        (s : α) (h : CublasHandle),
      Event.setPointerMode .host ∉ (rotgT fn a b c s h).trace) ∧
    (∀ (α : Type)
        (fn : NativeFn (Int → List α → Int → List α → Int → List α → List α × List α))
        (n : Int) (x : List α) (incx : Int) (y : List α) (incy : Int) (param : List α)
        (h : CublasHandle),
      Event.setPointerMode .host ∉ (rotmT fn n x incx y incy param h).trace) ∧
    (∀ (α : Type) (fn : NativeFn (Int → List α → Int → List α → Int → List α)) (n : Int)
        (x : List α) (incx : Int) (y : List α) (incy : Int) (h : CublasHandle),
      Event.setPointerMode .host ∉ (copyT fn n x incx y incy h).trace) ∧
    (∀ (α : Type) (fn : NativeFn (Int → List α → Int → List α → Int → α)) (n : Int)
        (x : List α) (incx : Int) (y : List α) (incy : Int) (h : CublasHandle),
      Event.setPointerMode .host ∉ (dotT fn n x incx y incy h).trace) ∧
    (∀ (α β γ : Type)
        (fn : NativeFn (Int → List α → Int → List α → Int → β → γ → List α × List α))
        (n : Int) (x : List α) (incx : Int) (y : List α) (incy : Int) (c : β) (s : γ)
        (h : CublasHandle),
      Event.setPointerMode .host ∉ (rotT fn n x incx y incy c s h).trace) ∧
    (∀ (n : Int) (sb : Val) (x : List Val) (incx : Int) (y : List Val) (incy : Int)
        (h : CublasHandle),
      Event.setPointerMode .host ∉ (sdsdot n sb x incx y incy h).trace) ∧
    (∀ (n : Int) (x : List Val) (incx : Int) (y : List Val) (incy : Int)
        (h : CublasHandle),
      Event.setPointerMode .host ∉ (dot_mixed n x incx y incy h).trace) ∧
    (∀ (α : Type) (fn : NativeFn (α → α → α → α → List α → α × α × α × List α))
        (d1 d2 x1 y1 : α) (param : List α) (h : CublasHandle),
      Event.setPointerMode .host ∉ (rotmgT fn d1 d2 x1 y1 param h).trace) ∧
    (∀ (α : Type) (fn : NativeFn (Int → List α → Int → Int)) (n : Int) (x : List α)
        (incx : Int) (h : CublasHandle),
      Event.setPointerMode .host ∉ (iamaxT fn n x incx h).trace) ∧
    (∀ (α : Type) (fn : NativeFn (Int → List α → Int → List α → Int → List α × List α))
        (n : Int) (x : List α) (incx : Int) (y : List α) (incy : Int) (h : CublasHandle),
      Event.setPointerMode .host ∉ (swapT fn n x incx y incy h).trace) ∧
    (∀ (α : Type) (fn : NativeFn (Int → List α → Int → Int)) (n : Int) (x : List α)
        (incx : Int) (h : CublasHandle),
      Event.setPointerMode .host ∉ (iaminT fn n x incx h).trace) ∧
    (∀ (α β : Type) (fn : NativeFn (Int → List α → Int → β)) (n : Int) (x : List α)
        (incx : Int) (h : CublasHandle),
      Event.setPointerMode .host ∉ (nrm2T fn n x incx h).trace) ∧
    (∀ (α β : Type) (fn : NativeFn (Int → List α → Int → β)) (n : Int) (x : List α)
        (incx : Int) (h : CublasHandle), fitsNativeInt (n * maxAbsStride [incx]) →
      (asumT fn n x incx h).handle.pointerMode = .device) ∧
    (∀ (α : Type) (fn : NativeFn (Int → List α → Int → List α → Int → α)) (n : Int)
        (x : List α) (incx : Int) (y : List α) (incy : Int) (h : CublasHandle),
      fitsNativeInt (n * maxAbsStride [incx, incy]) →
      (dotT fn n x incx y incy h).handle.pointerMode = .device) ∧
    (∀ (α β : Type) (fn : NativeFn (Int → List α → Int → β)) (n : Int) (x : List α)
        (incx : Int) (h : CublasHandle), fitsNativeInt (n * maxAbsStride [incx]) →
      (nrm2T fn n x incx h).handle.pointerMode = .device) ∧
    (∀ (α β : Type) (fn : NativeFn (α → α → β → α → α × α × β × α)) (a b : α) (c : β)
        (s : α) (h : CublasHandle), (rotgT fn a b c s h).handle.pointerMode = .device) ∧
    (∀ (α : Type) (fn : NativeFn (α → α → α → α → List α → α × α × α × List α))
        (d1 d2 x1 y1 : α) (param : List α) (h : CublasHandle),
      (rotmgT fn d1 d2 x1 y1 param h).handle.pointerMode = .device) ∧
    (∀ (n : Int) (sb : Val) (x : List Val) (incx : Int) (y : List Val) (incy : Int)
        (h : CublasHandle), fitsNativeInt (n * maxAbsStride [incx, incy]) →
      (sdsdot n sb x incx y incy h).handle.pointerMode = .device) ∧
    (∀ (n : Int) (x : List Val) (incx : Int) (y : List Val) (incy : Int)
        (h : CublasHandle), fitsNativeInt (n * maxAbsStride [incx, incy]) →
      (dot_mixed n x incx y incy h).handle.pointerMode = .device) ∧
    (∀ (α : Type)
        (fn : NativeFn (Int → List α → Int → List α → Int → List α → List α × List α))
        (n : Int) (x : List α) (incx : Int) (y : List α) (incy : Int) (param : List α)
        (h : CublasHandle), fitsNativeInt (n * maxAbsStride [incx, incy]) →
      (rotmT fn n x incx y incy param h).handle.pointerMode = .device) ∧
    (∀ (α : Type) (fn : NativeFn (Int → List α → Int → Int)) (n : Int) (x : List α)
        (incx : Int) (h : CublasHandle), fitsNativeInt (n * maxAbsStride [incx]) →
      (iamaxT fn n x incx h).handle.pointerMode = .device) ∧
    (∀ (α : Type) (fn : NativeFn (Int → List α → Int → Int)) (n : Int) (x : List α)
        (incx : Int) (h : CublasHandle), fitsNativeInt (n * maxAbsStride [incx]) →
      (iaminT fn n x incx h).handle.pointerMode = .device) ∧
    (∀ (α1 β1 α2 : Type) (fn1 : NativeFn (Int → List α1 → Int → β1))
        (fn2 : NativeFn (Int → α2 → List Val → Int → List Val)) (n1 : Int) (x1 : List α1)
        (incx1 : Int) (n2 : Int) (a : α2) (x2 : List Val) (incx2 : Int)
        (h : CublasHandle),
      fitsNativeInt (n1 * maxAbsStride [incx1]) →
      fitsNativeInt (n2 * maxAbsStride [incx2]) →
      (scalT fn2 n2 a x2 incx2 (asumT fn1 n1 x1 incx1 h).handle).trace =
        [.submit, .nativeCall fn2.name .device [n2, intAbs incx2]]) ∧
    (∀ (α1 β1 α2 : Type) (fn1 : NativeFn (Int → List α1 → Int → β1))
        (fn2 : NativeFn (Int → α2 → List α2 → Int → List α2 → Int → List α2)) (n1 : Int)
        (x1 : List α1) (incx1 : Int) (n2 : Int) (alpha : α2) (x2 : List α2) (incx2 : Int)
        (y2 : List α2) (incy2 : Int) (h : CublasHandle),
      fitsNativeInt (n1 * maxAbsStride [incx1]) →
      fitsNativeInt (n2 * maxAbsStride [incx2, incy2]) →
      (axpyT fn2 n2 alpha x2 incx2 y2 incy2 (asumT fn1 n1 x1 incx1 h).handle).trace =
        [.submit, .nativeCall fn2.name .device [n2, incx2, incy2]]) ∧
    (∀ (α1 β1 α2 β2 γ2 : Type) (fn1 : NativeFn (Int → List α1 → Int → β1))
        (fn2 : NativeFn (Int → List α2 → Int → List α2 → Int → β2 → γ2 → List α2 × List α2))
        (n1 : Int) (x1 : List α1) (incx1 : Int) (n2 : Int) (x2 : List α2) (incx2 : Int)
        (y2 : List α2) (incy2 : Int) (c : β2) (s : γ2) (h : CublasHandle),
      fitsNativeInt (n1 * maxAbsStride [incx1]) →
      fitsNativeInt (n2 * maxAbsStride [incx2, incy2]) →
      (rotT fn2 n2 x2 incx2 y2 incy2 c s (asumT fn1 n1 x1 incx1 h).handle).trace =
        [.submit, .nativeCall fn2.name .device [n2, incx2, incy2]]) := by
  refine ⟨?_, ?_, ?_, ?_, ?_, ?_, ?_, ?_, ?_, ?_, ?_, ?_, ?_, ?_, ?_, ?_, ?_, ?_, ?_, ?_,
    ?_, ?_, ?_, ?_, ?_, ?_, ?_, ?_, ?_, ?_, ?_⟩ <;>
    · intros
      first
      | (simp_all [asumT, scalT, axpyT, rotgT, rotmT, copyT, dotT, rotT, sdsdot, dot_mixed,
          rotmgT, iamaxT, swapT, iaminT, nrm2T, overflow_check, apply_ite]
         done)
      | (simp only [asumT, scalT, axpyT, rotgT, rotmT, copyT, dotT, rotT, sdsdot,
          dot_mixed, rotmgT, iamaxT, swapT, iaminT, nrm2T]
         (repeat' split) <;> simp_all)

/-- Witness for C9: after a concrete asum invocation on a fresh host-mode
handle, a concrete scal invocation on the returned handle issues its native
call in device pointer mode without any pointer-mode switch of its own. -/
theorem pointer_mode_never_reset_witness :
    (scalT cublasSscal 3 (2 : Val) [(1 : Val), 2, 3] 1
        (asumT cublasSasum 3 [(-3 : Val), 4, -5] 1 h0).handle).trace =
      [.submit, .nativeCall "cublasSscal" .device [3, 1]] :=
  pointer_mode_never_reset.2.2.2.2.2.2.2.2.2.2.2.2.2.2.2.2.2.2.2.2.2.2.2.2.2.2.2.2.1
    Val Val Val cublasSasum cublasSscal 3 [(-3 : Val), 4, -5] 1 3 (2 : Val)
    [(1 : Val), 2, 3] 1 h0 (by decide) (by decide)

/-- Claim C10: scal passes `std::abs(incx)` to the native routine, so for
every element type, native routine, scalar and input vector, invoking scal
with a negative stride behaves identically (same full outcome) to invoking
it with `|incx|`; the native-call event records the absolute stride. -/
theorem scal_abs_stride_behavior :
    ∀ (α β : Type) (fn : NativeFn (Int → α → List β → Int → List β)) (n : Int) (a : α)
      (x : List β) (s : Int) (h : CublasHandle), s < 0 →
      scalT fn n a x s h = scalT fn n a x |s| h ∧
      (fitsNativeInt (n * maxAbsStride [s]) →
        (scalT fn n a x s h).trace =
          [.submit, .nativeCall fn.name h.pointerMode [n, intAbs s]]) := by
  intro α β fn n a x s h _
  constructor
  · rw [← intAbs_eq_abs]
    simp [scalT, overflow_check, maxAbsStride_intAbs, intAbs_intAbs]
  · intro hfit
    simp [scalT, overflow_check, hfit]

/-- Witness for C10: a concrete scal invocation with stride `-1` has the
same outcome as the one with stride `1`, and records the absolute stride in
its native call. -/
theorem scal_abs_stride_behavior_witness :
    scalT cublasSscal 3 (2 : Val) [(1 : Val), 2, 3] (-1) h0 =
      scalT cublasSscal 3 (2 : Val) [(1 : Val), 2, 3] |(-1 : Int)| h0 ∧
    (scalT cublasSscal 3 (2 : Val) [(1 : Val), 2, 3] (-1) h0).trace =
      [.submit, .nativeCall "cublasSscal" .host [3, 1]] :=
  ⟨(scal_abs_stride_behavior Val Val cublasSscal 3 (2 : Val) [(1 : Val), 2, 3] (-1) h0
      (by decide)).1,
   (scal_abs_stride_behavior Val Val cublasSscal 3 (2 : Val) [(1 : Val), 2, 3] (-1) h0
      (by decide)).2 (by decide)⟩

end OneMKLCublas
